import Mathlib

/-!
Shallow embedding of the interactive watch-mode subsystem of the repository:
`src/packages/jest-cli/src/watch.js` (the watch controller), the
`ReporterDispatcher` class and the `TestNamePatternPrompt` class of
`src/packages/jest-core/src/ReporterDispatcher.ts`.

Conventions used throughout:
* JS `undefined`/`null` is modelled as `Option.none`.
* Observable actions (writes to the output pipe, `process.exit`,
  `console.error`, the invocation of the external `runJest` coordinator) are
  recorded as an explicit `Effect` trace returned next to the new state.
* `TestWatcher` cancellation tokens are modelled by the list `watchers` of
  their `interrupted` flags, in allocation order; the `testWatcher` variable
  of `watch.js` always refers to the most recently allocated token, i.e. the
  last entry of the list.  An empty list models the initial state in which
  the `testWatcher` variable is still `undefined`.
-/

/-- Assertion-level result: the `{title}` objects stored in a test result's
`testResults` array, scanned by `TestNamePatternPrompt._getMatchedTests`. -/
structure AssertionResult where
  title : String
  deriving DecidableEq, Repr

/-- Test-file-level result object.  `sourceMaps`, `coverage` and `console` are
the heavy payload fields cleared by `ReporterDispatcher.onTestFileResult`
(JS `undefined` is `none`, with an abstract `String` payload otherwise);
`testResults` stands for the remaining fields of the object, which the
dispatcher does not touch. -/
structure TestResult where
  testResults : List AssertionResult
  sourceMaps : Option String := none
  coverage : Option String := none
  console : Option String := none
  deriving DecidableEq, Repr

/-- Reporter capability record: which of the optional hooks the reporter
object defines, i.e. the JS truthiness of `reporter.onTestFileResult` and
friends (ReporterDispatcher.ts only consults presence, not the value). -/
structure Reporter where
  onTestFileResult : Bool
  onTestResult : Bool
  onTestFileStart : Bool
  onTestStart : Bool
  deriving DecidableEq, Repr

/-- Hook names that a dispatcher invocation can target, used to record the
invocation trace of a dispatch. -/
inductive Hook where
  | onTestFileResult
  | onTestResult
  | onTestFileStart
  | onTestStart
  deriving DecidableEq, Repr

namespace ReporterDispatcher

/-- Loop of `ReporterDispatcher.onTestFileResult` (ReporterDispatcher.ts
lines 40-46): for each registered reporter, in registration order, await
`onTestFileResult` if present, else await `onTestResult` if present, else do
nothing.  `n` is the index of the first reporter of the remaining list; the
result is the invocation trace as (reporter index, hook invoked) pairs. -/
def fileResultCalls : Nat → List Reporter → List (Nat × Hook)
  | _, [] => []
  | n, r :: rest =>
    (if r.onTestFileResult then [(n, Hook.onTestFileResult)]
     else if r.onTestResult then [(n, Hook.onTestResult)]
     else []) ++ fileResultCalls (n + 1) rest

/-- Loop of `ReporterDispatcher.onTestFileStart` (ReporterDispatcher.ts
lines 55-61): `onTestFileStart` if present, else the legacy `onTestStart`. -/
def fileStartCalls : Nat → List Reporter → List (Nat × Hook)
  | _, [] => []
  | n, r :: rest =>
    (if r.onTestFileStart then [(n, Hook.onTestFileStart)]
     else if r.onTestStart then [(n, Hook.onTestStart)]
     else []) ++ fileStartCalls (n + 1) rest

/-- `ReporterDispatcher.onTestFileResult` (ReporterDispatcher.ts lines 35-52):
dispatch to every registered reporter, then unconditionally clear the heavy
payload fields of the result object (`testResult.sourceMaps = undefined` and
so on).  Returns the invocation trace and the mutated result object. -/
def onTestFileResult (reporters : List Reporter) (testResult : TestResult) :
    List (Nat × Hook) × TestResult :=
  (fileResultCalls 0 reporters,
   { testResult with sourceMaps := none, coverage := none, console := none })

/-- `ReporterDispatcher.onTestFileStart` (ReporterDispatcher.ts lines 54-62):
returns the invocation trace of the dispatch. -/
def onTestFileStart (reporters : List Reporter) : List (Nat × Hook) :=
  fileStartCalls 0 reporters

end ReporterDispatcher

namespace TestNamePatternPrompt

/-- Body of `_getMatchedTests` (ReporterDispatcher.ts lines 245-265),
parameterised by `compile`, the JS `new RegExp(pattern, 'i')` construction:
`compile pattern = none` models the constructor throwing a `SyntaxError`
(caught by the `try/catch`, which returns `[]`), and `compile pattern = some
rtest` models a successfully compiled regex whose `.test` method is `rtest`.
The two nested `forEach`/`push` loops are transcribed as nested left folds
that append each matching title. -/
def getMatchedTests (compile : String → Option (String → Bool))
    (cachedTestResults : List TestResult) (pattern : String) : List String :=
  match compile pattern with
  | none => []
  | some rtest =>
    cachedTestResults.foldl
      (fun matchedTests tr =>
        tr.testResults.foldl
          (fun acc a => if rtest a.title then acc ++ [a.title] else acc)
          matchedTests)
      []

/-- `updateCachedTestResults` (ReporterDispatcher.ts lines 267-269):
`this._cachedTestResults = testResults || []`.  The argument is `none` for a
JS `null`/`undefined` argument; a real array (even an empty one) is truthy in
JS, so it is kept as is. -/
def updateCachedTestResults (testResults : Option (List TestResult)) :
    List TestResult :=
  match testResults with
  | some ts => ts
  | none => []

end TestNamePatternPrompt

/-- Boolean test that `needle` occurs at the very start of `hay`. -/
def listStartsWith : List Char → List Char → Bool
  | [], _ => true
  | _ :: _, [] => false
  | a :: as, b :: bs => a == b && listStartsWith as bs

/-- Boolean test that `needle` occurs contiguously anywhere inside `hay`. -/
def containsSub (needle : List Char) : List Char → Bool
  | [] => needle.isEmpty
  | b :: bs => listStartsWith needle (b :: bs) || containsSub needle bs

/-- Characters that are metacharacters (or open a group) in a JS regex. -/
def regexMetachars : List Char :=
  ['(', ')', '[', ']', '^', '$', '.', '|', '?', '*', '+', '\\']

/-- Unanchored case-insensitive search that `new RegExp(lit, 'i').test`
performs when `lit` is a metacharacter-free literal pattern: both sides are
lowered character by character and the pattern is searched for as a
contiguous subsequence. -/
def literalTest (pattern : String) : String → Bool :=
  fun s =>
    containsSub (pattern.toList.map Char.toLower) (s.toList.map Char.toLower)

/-- Concrete model of the JS platform primitive `new RegExp(pattern, 'i')`,
restricted to the fragment the development evaluates it on: a
metacharacter-free pattern compiles to case-insensitive substring search
(`literalTest`), and a pattern containing a metacharacter is conservatively
mapped to `none` — faithful at the patterns actually used, such as the
unbalanced group "(", whose construction throws a `SyntaxError` in JS.
Generic theorems quantify over an arbitrary `compile` function instead. -/
def jsRegexI (pattern : String) : Option (String → Bool) :=
  if pattern.toList.any (fun c => regexMetachars.contains c) then none
  else some (literalTest pattern)

/-- Watch mode recorded on `argv` by `setWatchMode`. -/
inductive WatchMode where
  | watch
  | watchAll
  deriving DecidableEq, Repr

/-- Logical keyboard tokens: the `KEYS` constants of `jest-cli`'s `constants`
module plus an `other` constructor for any remaining printable key (which
`watch.js` decodes from hex with `new Buffer(key, 'hex').toString()`). -/
inductive Key where
  | CONTROL_C
  | CONTROL_D
  | ENTER
  | ESCAPE
  | BACKSPACE
  | ARROW_DOWN
  | ARROW_LEFT
  | ARROW_RIGHT
  | ARROW_UP
  | Q
  | A
  | O
  | P
  | U
  | QUESTION_MARK
  | other (c : Char)
  deriving DecidableEq, Repr

/-- Decoded character of a key (`new Buffer(key, 'hex').toString()`).  Only
printable keys reach the decode in `watch.js` (the control, enter, escape,
backspace and arrow keys are dispatched on earlier), so the value returned
for those is irrelevant and set to `""`. -/
def Key.char : Key → String
  | Key.Q => "q"
  | Key.A => "a"
  | Key.O => "o"
  | Key.P => "p"
  | Key.U => "u"
  | Key.QUESTION_MARK => "?"
  | Key.other c => c.toString
  | _ => ""

/-- Observable actions of the watch controller, in program order. -/
inductive Effect where
  | writeClear
  | preRunMessage
  | runJest (tokenIdx : Nat) (updateSnapshot : Bool)
  | writeUsage
  | exitProcess
  | consoleError
  | cursorHide
  | cursorShow
  | clearScreen
  | eraseScreen
  | renderPrompt (pattern : String)
  deriving DecidableEq, Repr

/-- Mutable state of the `watch` closure (watch.js lines 39-44) together with
the parts of `argv` that `setWatchMode` maintains: `argvPattern` is `argv._`
(the committed pattern list) and `argvMode` the recorded watch mode.
`watchers` holds the `interrupted` flags of every `TestWatcher` allocated so
far, in allocation order; the current `testWatcher` is the last entry. -/
structure WatchState where
  currentPattern : String
  hasSnapshotFailure : Bool
  isEnteringPattern : Bool
  isRunning : Bool
  watchers : List Bool
  displayHelp : Bool
  argvPattern : List String
  argvMode : WatchMode
  deriving DecidableEq, Repr

/-- Mutation `testWatcher.setState({interrupted: true})` applied to the most
recently allocated token: sets the last flag of the allocation list, leaving
every stale token untouched. -/
def setLastInterrupted : List Bool → List Bool
  | [] => []
  | [_] => [true]
  | b :: c :: rest => b :: setLastInterrupted (c :: rest)

/-- Modelled from the spec: `setWatchMode` (`jest-cli/src/lib/setWatchMode`,
not under `src/`) "records the watch mode" on `argv` and, per §4.2, a call
carrying a `pattern` option commits that pattern list as `argv._`; without
the option the committed pattern is left unchanged. -/
def setWatchMode (s : WatchState) (mode : WatchMode)
    (pattern : Option (List String)) : WatchState :=
  { s with argvMode := mode, argvPattern := pattern.getD s.argvPattern }

/-- Effect trace of the local `writeCurrentPattern` helper (watch.js lines
55-71): hide the cursor, clear the screen, print the pattern-mode header and
typeahead for the current pattern, show the cursor. -/
def writeCurrentPattern (pattern : String) : List Effect :=
  [Effect.cursorHide, Effect.clearScreen, Effect.renderPrompt pattern,
   Effect.cursorShow]

/-- `startRun` (watch.js lines 73-105).  `updateSnapshot` is the only
override the file ever passes (`{updateSnapshot: true}` from the `u` key);
`false` models the empty override object.  If a run is active the call
returns `null` immediately, changing nothing.  Otherwise a fresh
`TestWatcher` is allocated, the screen cleared, the pre-run message printed,
the `Running` flag set, and `runJest` invoked with the frozen merged config
and the new token (recorded as the `runJest` effect carrying the token's
index). -/
def startRun (s : WatchState) (updateSnapshot : Bool) :
    WatchState × List Effect :=
  if s.isRunning then (s, [])
  else
    let watchers := s.watchers ++ [false]
    ({ s with watchers := watchers, isRunning := true },
     [Effect.writeClear, Effect.preRunMessage,
      Effect.runJest (watchers.length - 1) updateSnapshot])

/-- Aggregated results delivered to `startRun`'s completion callback; only
`results.snapshot.failure` is consulted. -/
structure RunResults where
  snapshotFailure : Bool
  deriving DecidableEq, Repr

/-- Modelled from the spec: how the external `runJest` coordinator (`RunCoordinator`,
`jest-cli/src/runJest`, not under `src/`) settles — it "executes one test run
... produces aggregated results asynchronously" (§2), so on success it
delivers the results to the completion callback passed by `startRun` and its
promise resolves, while on failure its promise rejects without having
produced results. -/
inductive RunOutcome where
  | success (results : RunResults)
  | failure
  deriving DecidableEq, Repr

/-- Completion callback passed to `runJest` by `startRun` (watch.js lines
89-100): clear `Running`, record the snapshot failure, allocate a
replacement `TestWatcher`, and print the usage banner unless suppressed
(`jestHideUsage` is the truthiness of `process.env.JEST_HIDE_USAGE`). -/
def onRunCompleteCb (jestHideUsage : Bool) (s : WatchState)
    (results : RunResults) : WatchState × List Effect :=
  let s1 := { s with
    isRunning := false,
    hasSnapshotFailure := results.snapshotFailure,
    watchers := s.watchers ++ [false] }
  if s1.displayHelp then
    ({ s1 with displayHelp := !jestHideUsage }, [Effect.writeUsage])
  else (s1, [])

/-- Settlement of the promise returned by `startRun` (watch.js lines
101-104): on success the coordinator has already invoked the completion
callback and the fulfilled branch `() => {}` adds nothing; on rejection only
the handler `error => console.error(chalk.red(error.stack))` runs. -/
def settleRun (jestHideUsage : Bool) (s : WatchState) (o : RunOutcome) :
    WatchState × List Effect :=
  match o with
  | RunOutcome.success results => onRunCompleteCb jestHideUsage s results
  | RunOutcome.failure => (s, [Effect.consoleError])

/-- `onKeypress` (watch.js lines 107-185).  `jestHideUsage` is the
truthiness of `process.env.JEST_HIDE_USAGE`. -/
def onKeypress (jestHideUsage : Bool) (s : WatchState) (key : Key) :
    WatchState × List Effect :=
  if key = Key.CONTROL_C ∨ key = Key.CONTROL_D then
    (s, [Effect.exitProcess])
  else if s.isEnteringPattern then
    if key = Key.ENTER then
      startRun
        (setWatchMode { s with isEnteringPattern := false }
          WatchMode.watch (some [s.currentPattern]))
        false
    else if key = Key.ESCAPE then
      ({ s with isEnteringPattern := false,
                currentPattern := s.argvPattern.headD "" },
       [Effect.cursorHide, Effect.clearScreen, Effect.writeUsage,
        Effect.cursorShow])
    else if key = Key.ARROW_DOWN ∨ key = Key.ARROW_LEFT ∨
        key = Key.ARROW_RIGHT ∨ key = Key.ARROW_UP then
      (s, [])
    else
      let newPattern :=
        if key = Key.BACKSPACE then s.currentPattern.dropRight 1
        else s.currentPattern ++ key.char
      ({ s with currentPattern := newPattern }, writeCurrentPattern newPattern)
  else if s.isRunning = true ∧ s.watchers ≠ [] ∧
      (key = Key.Q ∨ key = Key.ENTER ∨ key = Key.A ∨ key = Key.O ∨
       key = Key.P) then
    ({ s with watchers := setLastInterrupted s.watchers }, [])
  else if key = Key.Q then
    (s, [Effect.exitProcess])
  else if key = Key.ENTER then
    startRun s false
  else if key = Key.U then
    startRun s true
  else if key = Key.A then
    startRun (setWatchMode s WatchMode.watchAll none) false
  else if key = Key.O then
    startRun (setWatchMode s WatchMode.watch none) false
  else if key = Key.P then
    ({ s with isEnteringPattern := true, currentPattern := "" },
     Effect.eraseScreen :: writeCurrentPattern "")
  else if key = Key.QUESTION_MARK then
    if jestHideUsage then (s, [Effect.writeUsage]) else (s, [])
  else (s, [])

/-- Initial closure state of `watch` (watch.js lines 36-45): empty pattern,
all flags clear except `displayHelp`, `testWatcher` still unallocated, and
`setWatchMode(argv, argv.watch ? 'watch' : 'watchAll', {pattern: argv._})`
applied. -/
def initialState (watchFlag : Bool) (argvUnderscore : List String) :
    WatchState :=
  { currentPattern := ""
    hasSnapshotFailure := false
    isEnteringPattern := false
    isRunning := false
    watchers := []
    displayHelp := true
    argvPattern := argvUnderscore
    argvMode := if watchFlag then WatchMode.watch else WatchMode.watchAll }

/-- Handler for `hasteMap.on('change', ...)` (watch.js lines 47-53): reset
the pattern, force pattern-entry mode off, rebuild the search source
(external) and start a run. -/
def onFileChange (s : WatchState) : WatchState × List Effect :=
  startRun { s with currentPattern := "", isEnteringPattern := false } false

/-- Cached test records of the worked example: one record whose titles are
"adds numbers" and "subtracts numbers". -/
def demoCache : List TestResult :=
  [{ testResults := [{ title := "adds numbers" },
                     { title := "subtracts numbers" }] }]

/-- Sample result object with every heavy payload field populated. -/
def demoResult : TestResult :=
  { testResults := [{ title := "adds numbers" }]
    sourceMaps := some "maps"
    coverage := some "cov"
    console := some "log" }

/-- Sample reporter sequence: index 0 implements both the modern and the
legacy file hooks, index 1 only the legacy ones, index 2 neither. -/
def demoReporters : List Reporter :=
  [{ onTestFileResult := true, onTestResult := true,
     onTestFileStart := true, onTestStart := true },
   { onTestFileResult := false, onTestResult := true,
     onTestFileStart := false, onTestStart := true },
   { onTestFileResult := false, onTestResult := false,
     onTestFileStart := false, onTestStart := false }]

/-- State reached right after the initial `startRun` of a fresh `watch`
session: one token allocated, `Running` set. -/
def runningState : WatchState :=
  (startRun (initialState true ["committed"]) false).1

/-- Session state in pattern-entry mode with an edited buffer "edited" while
the previously committed pattern is "committed". -/
def enteringState : WatchState :=
  { runningState with isEnteringPattern := true, currentPattern := "edited" }

/-! ## Claim theorems -/

/-- C2: a call to `startRun` while `isRunning` is true returns immediately:
no second run is created (no effects at all, in particular no `runJest`
invocation), nothing is queued, and the controller state is unmodified. -/
theorem C2_startRun_overlap_dropped (s : WatchState) (updateSnapshot : Bool)
    (h : s.isRunning = true) :
    startRun s updateSnapshot = (s, []) := by
  simp [startRun, h]

/-- C2 witness: dropping an overlapping start request in the concrete
running state. -/
theorem C2_startRun_overlap_dropped_witness :
    startRun runningState true = (runningState, []) :=
  C2_startRun_overlap_dropped runningState true rfl

/-- C9: pressing `u` outside pattern-entry mode while a run is active has no
observable effect — `u` is not in the abort key set, so no token is touched,
and the triggered `startRun {updateSnapshot: true}` is dropped because a run
is already active. -/
theorem C9_u_key_noop_while_running (jestHideUsage : Bool) (s : WatchState)
    (h1 : s.isEnteringPattern = false) (h2 : s.isRunning = true) :
    onKeypress jestHideUsage s Key.U = (s, []) ∧
    startRun s true = (s, []) := by
  constructor
  · simp [onKeypress, h1, h2, startRun]
  · simp [startRun, h2]

/-- C9 witness: the `u` key at the concrete running state. -/
theorem C9_u_key_noop_while_running_witness :
    onKeypress false runningState Key.U = (runningState, []) :=
  (C9_u_key_noop_while_running false runningState rfl rfl).1

/-- C5: after `onTestFileResult` dispatch — for any number of registered
reporters, including zero — the result object's `sourceMaps`, `coverage` and
`console` fields are `undefined`, while the remaining fields
(`testResults`) are unchanged by the dispatcher. -/
theorem C5_heavy_fields_cleared (reporters : List Reporter)
    (testResult : TestResult) :
    (ReporterDispatcher.onTestFileResult reporters testResult).2.sourceMaps
        = none ∧
    (ReporterDispatcher.onTestFileResult reporters testResult).2.coverage
        = none ∧
    (ReporterDispatcher.onTestFileResult reporters testResult).2.console
        = none ∧
    (ReporterDispatcher.onTestFileResult reporters testResult).2.testResults
        = testResult.testResults ∧
    (ReporterDispatcher.onTestFileResult [] testResult).2 =
      { testResult with sourceMaps := none, coverage := none,
                        console := none } :=
  ⟨rfl, rfl, rfl, rfl, rfl⟩

/-- C6: a pattern whose regex compilation fails yields the empty match list;
the failure never propagates past `_getMatchedTests` (the `try/catch`
returns `[]` for every cache). -/
theorem C6_bad_pattern_zero_matches
    (compile : String → Option (String → Bool))
    (cachedTestResults : List TestResult) (pattern : String)
    (h : compile pattern = none) :
    TestNamePatternPrompt.getMatchedTests compile cachedTestResults pattern
      = [] := by
  simp [TestNamePatternPrompt.getMatchedTests, h]

/-- C6 witness: the unbalanced group "(" fails to compile and matches no
cached title. -/
theorem C6_bad_pattern_zero_matches_witness :
    jsRegexI "(" = none ∧
    TestNamePatternPrompt.getMatchedTests jsRegexI demoCache "(" = [] :=
  ⟨rfl, C6_bad_pattern_zero_matches jsRegexI demoCache "(" rfl⟩

/-- C10: `updateCachedTestResults` with a `null`/`undefined` argument
replaces the cache by the empty sequence, so every subsequent matching
query — whatever the pattern and however it compiles — returns zero
matches. -/
theorem C10_null_cache_empty (compile : String → Option (String → Bool))
    (pattern : String) :
    TestNamePatternPrompt.updateCachedTestResults none = [] ∧
    TestNamePatternPrompt.getMatchedTests compile
      (TestNamePatternPrompt.updateCachedTestResults none) pattern = [] := by
  refine ⟨rfl, ?_⟩
  cases h : compile pattern <;>
    simp [TestNamePatternPrompt.getMatchedTests,
          TestNamePatternPrompt.updateCachedTestResults, h]

/-- Helper: mutating the current (most recently allocated) token rewrites the
allocation list to its front followed by a single `true` flag: every stale
token keeps its value and no token is allocated or dropped. -/
theorem setLastInterrupted_eq (l : List Bool) (h : l ≠ []) :
    setLastInterrupted l = l.dropLast ++ [true] := by
  induction l with
  | nil => exact absurd rfl h
  | cons b rest ih =>
    cases rest with
    | nil => simp [setLastInterrupted]
    | cons c rest' =>
      simp [setLastInterrupted, ih]

/-- C8: in pattern-entry mode (with a committed pattern `p` at the head of
`argv._`), escape discards the edit buffer and restores `p` as the current
pattern, redraws the usage banner, and returns to non-entering mode — with
no `runJest` invocation and no other state change. -/
theorem C8_escape_restores_committed (jestHideUsage : Bool) (s : WatchState)
    (p : String) (ps : List String)
    (h1 : s.isEnteringPattern = true) (h2 : s.argvPattern = p :: ps) :
    onKeypress jestHideUsage s Key.ESCAPE =
      ({ s with isEnteringPattern := false, currentPattern := p },
       [Effect.cursorHide, Effect.clearScreen, Effect.writeUsage,
        Effect.cursorShow]) := by
  simp [onKeypress, h1, h2]

/-- C8 witness: escaping the concrete entering-mode session whose buffer was
edited to "edited" restores the committed pattern "committed". -/
theorem C8_escape_restores_committed_witness :
    enteringState.currentPattern = "edited" ∧
    (onKeypress false enteringState Key.ESCAPE).1.currentPattern
      = "committed" ∧
    (onKeypress false enteringState Key.ESCAPE).1.isEnteringPattern
      = false := by
  refine ⟨rfl, ?_, ?_⟩ <;>
    rw [C8_escape_restores_committed false enteringState "committed" [] rfl
      rfl]

/-- C3: outside pattern-entry mode, while a run is active, each of the keys
q, enter, a, o, p only sets the active run's token flag `interrupted = true`
(the last allocated token): every other state field — in particular the mode
and the stale tokens — is unchanged, no token is allocated, no run is
started and nothing is rendered (the effect trace is empty). -/
theorem C3_abort_keys_only_interrupt (jestHideUsage : Bool) (s : WatchState)
    (key : Key) (h1 : s.isEnteringPattern = false) (h2 : s.isRunning = true)
    (h3 : s.watchers ≠ [])
    (hk : key = Key.Q ∨ key = Key.ENTER ∨ key = Key.A ∨ key = Key.O ∨
      key = Key.P) :
    onKeypress jestHideUsage s key =
      ({ s with watchers := s.watchers.dropLast ++ [true] }, []) := by
  have hset := setLastInterrupted_eq s.watchers h3
  rcases hk with hk | hk | hk | hk | hk <;> subst hk <;>
    simp [onKeypress, h1, h2, h3, hset]

/-- C3 witness: the enter key at the concrete running state (whose single
live token is uninterrupted) leaves only that token's flag set. -/
theorem C3_abort_keys_only_interrupt_witness :
    runningState.watchers = [false] ∧
    onKeypress false runningState Key.ENTER =
      ({ runningState with watchers := [true] }, []) := by
  refine ⟨rfl, ?_⟩
  rw [C3_abort_keys_only_interrupt false runningState Key.ENTER rfl rfl
    (by simp [runningState, startRun, initialState]) (Or.inr (Or.inl rfl))]
  rfl

/-- C1: the code does not implement the claimed failure semantics.  From the
reachable state `runningState` (a run in flight), a settlement by rejection
runs only the diagnostic handler `error => console.error(...)`: the state is
returned unchanged — `isRunning` stays `true` and no replacement
`TestWatcher` is allocated — so the controller is wedged in the Running
state; the claimed cleanup happens only on a successful settlement, i.e.
when the coordinator delivers results to the completion callback. -/
theorem C1_rejected_settlement_wedges :
    runningState.isRunning = true ∧
    settleRun false runningState RunOutcome.failure =
      (runningState, [Effect.consoleError]) ∧
    (settleRun false runningState
      (RunOutcome.success { snapshotFailure := false })).1.isRunning
        = false ∧
    (settleRun false runningState
      (RunOutcome.success { snapshotFailure := false })).1.watchers.length
        = runningState.watchers.length + 1 := by
  refine ⟨rfl, rfl, ?_, ?_⟩ <;>
    simp [settleRun, onRunCompleteCb, runningState, startRun, initialState]

/-- Helper: every call recorded by `fileResultCalls n rs` targets a reporter
index at least `n`. -/
theorem fileResultCalls_le (n : Nat) (rs : List Reporter) :
    ∀ c ∈ ReporterDispatcher.fileResultCalls n rs, n ≤ c.1 := by
  induction rs generalizing n with
  | nil =>
    intro c hc
    simp [ReporterDispatcher.fileResultCalls] at hc
  | cons r rest ih =>
    intro c hc
    simp only [ReporterDispatcher.fileResultCalls, List.mem_append] at hc
    rcases hc with hc | hc
    · split at hc
      · simp at hc; simp [hc]
      · split at hc
        · simp at hc; simp [hc]
        · simp at hc
    · have := ih (n + 1) c hc
      omega

/-- Helper: every call recorded by `fileStartCalls n rs` targets a reporter
index at least `n`. -/
theorem fileStartCalls_le (n : Nat) (rs : List Reporter) :
    ∀ c ∈ ReporterDispatcher.fileStartCalls n rs, n ≤ c.1 := by
  induction rs generalizing n with
  | nil =>
    intro c hc
    simp [ReporterDispatcher.fileStartCalls] at hc
  | cons r rest ih =>
    intro c hc
    simp only [ReporterDispatcher.fileStartCalls, List.mem_append] at hc
    rcases hc with hc | hc
    · split at hc
      · simp at hc; simp [hc]
      · split at hc
        · simp at hc; simp [hc]
        · simp at hc
    · have := ih (n + 1) c hc
      omega

/-- Helper: the calls of a file-result dispatch that target the reporter at
offset `i` are exactly what the two-step fallback selects for it. -/
theorem fileResultCalls_filter (rs : List Reporter) :
    ∀ (n i : Nat) (r : Reporter), rs[i]? = some r →
      (ReporterDispatcher.fileResultCalls n rs).filter
          (fun c => c.1 == n + i) =
        (if r.onTestFileResult then [(n + i, Hook.onTestFileResult)]
         else if r.onTestResult then [(n + i, Hook.onTestResult)]
         else []) := by
  induction rs with
  | nil => intro n i r h; simp at h
  | cons hd tl ih =>
    intro n i r h
    cases i with
    | zero =>
      simp only [List.getElem?_cons_zero, Option.some.injEq] at h
      subst h
      have htail : (ReporterDispatcher.fileResultCalls (n + 1) tl).filter
          (fun c => c.1 == n + 0) = [] := by
        rw [List.filter_eq_nil_iff]
        intro c hc
        have := fileResultCalls_le (n + 1) tl c hc
        simp only [beq_iff_eq]
        omega
      simp only [ReporterDispatcher.fileResultCalls, List.filter_append,
        htail, List.append_nil]
      split <;> try split
      all_goals simp
    | succ i =>
      simp only [List.getElem?_cons_succ] at h
      have htl := ih (n + 1) i r h
      have hne : (n == n + (i + 1)) = false := by
        simp only [beq_eq_false_iff_ne, ne_eq]
        omega
      have hhead :
          (if hd.onTestFileResult then [(n, Hook.onTestFileResult)]
           else if hd.onTestResult then [(n, Hook.onTestResult)]
           else []).filter (fun c => c.1 == n + (i + 1)) = [] := by
        split
        · simp [List.filter_cons, hne]
        · split
          · simp [List.filter_cons, hne]
          · simp
      simp only [ReporterDispatcher.fileResultCalls, List.filter_append,
        hhead, List.nil_append]
      have hidx : n + (i + 1) = n + 1 + i := by omega
      rw [hidx, htl]

/-- Helper: the calls of a file-start dispatch that target the reporter at
offset `i` are exactly what the two-step fallback selects for it. -/
theorem fileStartCalls_filter (rs : List Reporter) :
    ∀ (n i : Nat) (r : Reporter), rs[i]? = some r →
      (ReporterDispatcher.fileStartCalls n rs).filter
          (fun c => c.1 == n + i) =
        (if r.onTestFileStart then [(n + i, Hook.onTestFileStart)]
         else if r.onTestStart then [(n + i, Hook.onTestStart)]
         else []) := by
  induction rs with
  | nil => intro n i r h; simp at h
  | cons hd tl ih =>
    intro n i r h
    cases i with
    | zero =>
      simp only [List.getElem?_cons_zero, Option.some.injEq] at h
      subst h
      have htail : (ReporterDispatcher.fileStartCalls (n + 1) tl).filter
          (fun c => c.1 == n + 0) = [] := by
        rw [List.filter_eq_nil_iff]
        intro c hc
        have := fileStartCalls_le (n + 1) tl c hc
        simp only [beq_iff_eq]
        omega
      simp only [ReporterDispatcher.fileStartCalls, List.filter_append,
        htail, List.append_nil]
      split <;> try split
      all_goals simp
    | succ i =>
      simp only [List.getElem?_cons_succ] at h
      have htl := ih (n + 1) i r h
      have hne : (n == n + (i + 1)) = false := by
        simp only [beq_eq_false_iff_ne, ne_eq]
        omega
      have hhead :
          (if hd.onTestFileStart then [(n, Hook.onTestFileStart)]
           else if hd.onTestStart then [(n, Hook.onTestStart)]
           else []).filter (fun c => c.1 == n + (i + 1)) = [] := by
        split
        · simp [List.filter_cons, hne]
        · split
          · simp [List.filter_cons, hne]
          · simp
      simp only [ReporterDispatcher.fileStartCalls, List.filter_append,
        hhead, List.nil_append]
      have hidx : n + (i + 1) = n + 1 + i := by omega
      rw [hidx, htl]

/-- Helper: the trace of a file-result dispatch is strictly increasing in
the reporter index, i.e. reporters are reached in registration order. -/
theorem fileResultCalls_pairwise (n : Nat) (rs : List Reporter) :
    (ReporterDispatcher.fileResultCalls n rs).Pairwise
      (fun a b => a.1 < b.1) := by
  induction rs generalizing n with
  | nil => simp [ReporterDispatcher.fileResultCalls]
  | cons r rest ih =>
    simp only [ReporterDispatcher.fileResultCalls]
    rw [List.pairwise_append]
    refine ⟨?_, ih (n + 1), ?_⟩
    · split
      · simp
      · split <;> simp
    · intro a ha b hb
      have hb' := fileResultCalls_le (n + 1) rest b hb
      have ha' : a.1 = n := by
        split at ha
        · simp at ha; simp [ha]
        · split at ha
          · simp at ha; simp [ha]
          · simp at ha
      omega

/-- Helper: the trace of a file-start dispatch is strictly increasing in
the reporter index. -/
theorem fileStartCalls_pairwise (n : Nat) (rs : List Reporter) :
    (ReporterDispatcher.fileStartCalls n rs).Pairwise
      (fun a b => a.1 < b.1) := by
  induction rs generalizing n with
  | nil => simp [ReporterDispatcher.fileStartCalls]
  | cons r rest ih =>
    simp only [ReporterDispatcher.fileStartCalls]
    rw [List.pairwise_append]
    refine ⟨?_, ih (n + 1), ?_⟩
    · split
      · simp
      · split <;> simp
    · intro a ha b hb
      have hb' := fileStartCalls_le (n + 1) rest b hb
      have ha' : a.1 = n := by
        split at ha
        · simp at ha; simp [ha]
        · split at ha
          · simp at ha; simp [ha]
          · simp at ha
      omega

/-- C4: for every reporter sequence, `onTestFileResult` reaches each
registered reporter through `onTestFileResult` if present, else through the
legacy `onTestResult` if present, and never both (its slice of the trace is
a single call or, with neither hook, empty — skipped silently);
`onTestFileStart` does the same with `onTestFileStart` preferred over
`onTestStart`; and both traces visit reporters in strictly increasing
registration order. -/
theorem C4_dispatch_fallback (reporters : List Reporter)
    (testResult : TestResult) :
    (∀ (i : Nat) (r : Reporter), reporters[i]? = some r →
      ((ReporterDispatcher.onTestFileResult reporters testResult).1.filter
          (fun c => c.1 == i) =
        (if r.onTestFileResult then [(i, Hook.onTestFileResult)]
         else if r.onTestResult then [(i, Hook.onTestResult)]
         else [])) ∧
      ((ReporterDispatcher.onTestFileStart reporters).filter
          (fun c => c.1 == i) =
        (if r.onTestFileStart then [(i, Hook.onTestFileStart)]
         else if r.onTestStart then [(i, Hook.onTestStart)]
         else []))) ∧
    (ReporterDispatcher.onTestFileResult reporters testResult).1.Pairwise
      (fun a b => a.1 < b.1) ∧
    (ReporterDispatcher.onTestFileStart reporters).Pairwise
      (fun a b => a.1 < b.1) := by
  refine ⟨fun i r h => ⟨?_, ?_⟩,
    fileResultCalls_pairwise 0 reporters,
    fileStartCalls_pairwise 0 reporters⟩
  · have := fileResultCalls_filter reporters 0 i r h
    simpa [ReporterDispatcher.onTestFileResult] using this
  · have := fileStartCalls_filter reporters 0 i r h
    simpa [ReporterDispatcher.onTestFileStart] using this

/-- C4 witness: in the sample sequence, reporter 0 (both hooks) gets only
the modern hook, reporter 1 (legacy only) gets only the legacy hook, and
reporter 2 (no hooks) is skipped. -/
theorem C4_dispatch_fallback_witness :
    (ReporterDispatcher.onTestFileResult demoReporters demoResult).1.filter
        (fun c => c.1 == 0) = [(0, Hook.onTestFileResult)] ∧
    (ReporterDispatcher.onTestFileResult demoReporters demoResult).1.filter
        (fun c => c.1 == 1) = [(1, Hook.onTestResult)] ∧
    (ReporterDispatcher.onTestFileStart demoReporters).filter
        (fun c => c.1 == 2) = [] := by
  refine ⟨?_, ?_, ?_⟩
  · have h := ((C4_dispatch_fallback demoReporters demoResult).1 0
      { onTestFileResult := true, onTestResult := true,
        onTestFileStart := true, onTestStart := true } rfl).1
    simpa using h
  · have h := ((C4_dispatch_fallback demoReporters demoResult).1 1
      { onTestFileResult := false, onTestResult := true,
        onTestFileStart := false, onTestStart := true } rfl).1
    simpa using h
  · have h := ((C4_dispatch_fallback demoReporters demoResult).1 2
      { onTestFileResult := false, onTestResult := false,
        onTestFileStart := false, onTestStart := false } rfl).2
    simpa using h

/-- Helper: the inner `forEach`/`push` loop over one record's titles appends
exactly the matching titles, in stored order. -/
theorem titleFold_eq (rtest : String → Bool) (ts : List AssertionResult)
    (acc : List String) :
    ts.foldl (fun a x => if rtest x.title then a ++ [x.title] else a) acc =
      acc ++ (ts.filter (fun x => rtest x.title)).map AssertionResult.title := by
  induction ts generalizing acc with
  | nil => simp
  | cons x ts ih =>
    by_cases h : rtest x.title <;>
      simp [List.foldl_cons, h, ih, List.filter_cons]

/-- Helper: the outer loop over all cached records is the filtered, mapped
concatenation of their title lists. -/
theorem matchedFold_eq (rtest : String → Bool) (cached : List TestResult)
    (acc : List String) :
    cached.foldl
        (fun matched tr =>
          tr.testResults.foldl
            (fun a x => if rtest x.title then a ++ [x.title] else a) matched)
        acc =
      acc ++ ((cached.map TestResult.testResults).flatten.filter
        (fun x => rtest x.title)).map AssertionResult.title := by
  induction cached generalizing acc with
  | nil => simp
  | cons tr cached ih =>
    rw [List.foldl_cons, ih, titleFold_eq]
    simp [List.filter_append, List.append_assoc]

/-- C7: for every pattern that compiles (to the test function `rtest`),
matching scans records in stored order and titles within each record in
stored order, retaining exactly the matching titles — the result is the
filter of the concatenated title lists, so no title is deduplicated,
dropped, or re-sorted. -/
theorem C7_matching_scan_order (compile : String → Option (String → Bool))
    (cached : List TestResult) (pattern : String) (rtest : String → Bool)
    (h : compile pattern = some rtest) :
    TestNamePatternPrompt.getMatchedTests compile cached pattern =
      ((cached.map TestResult.testResults).flatten.filter
        (fun a => rtest a.title)).map AssertionResult.title := by
  simp [TestNamePatternPrompt.getMatchedTests, h, matchedFold_eq]

/-- C7 witness: with cached titles "adds numbers" and "subtracts numbers",
the compilable pattern "add" yields exactly ["adds numbers"] and "numbers"
yields both, in stored order. -/
theorem C7_matching_scan_order_witness :
    TestNamePatternPrompt.getMatchedTests jsRegexI demoCache "add"
      = ["adds numbers"] ∧
    TestNamePatternPrompt.getMatchedTests jsRegexI demoCache "numbers"
      = ["adds numbers", "subtracts numbers"] := by
  constructor
  · rw [C7_matching_scan_order jsRegexI demoCache "add"
      (literalTest "add") rfl]
    decide
  · rw [C7_matching_scan_order jsRegexI demoCache "numbers"
      (literalTest "numbers") rfl]
    decide
